import Mathlib

/-!
Shallow embedding of the selenium_nalog_parsers repository (base.py,
exceptions.py, parser_arbitr.py, parser_inn.py, parser_npd.py,
parser_rom.py) and proofs about the claims of its specification.

The browser page is modelled as a time-indexed family of snapshots (a
deterministic test double): every driver interaction observes the snapshot
at the current tick, appends an event to a trace, and advances the tick.
A `WebDriverWait` is a single observation: it succeeds iff its condition
holds on the snapshot it observes, and raises `TimeoutException`
otherwise, which is the behaviour of a wait against a page that does not
change during the wait window.  Python exceptions are modelled with
`Except`; the exception classes of exceptions.py and the two Selenium
exception classes caught by the parsers form the `PyError` type.
-/

deriving instance DecidableEq for Except

set_option maxRecDepth 40000

namespace SeleniumNalog

/-- Locator strategies used by the repository (selenium `By`). -/
inductive By where
  | XPATH
  | CLASS_NAME
  | ID
deriving DecidableEq, Repr

/-- An immutable (strategy, value) pair identifying one UI element. -/
structure Locator where
  strategy : By
  value : String
deriving DecidableEq, Repr

/-- One instantaneous state of the page: which elements the driver can
find, which are displayed, which are enabled, and their text. -/
structure Snapshot where
  present : Locator → Bool
  displayed : Locator → Bool
  enabled : Locator → Bool
  text : Locator → String

/-- `EC.visibility_of_element_located`: the element exists and is displayed. -/
def Snapshot.visible (s : Snapshot) (loc : Locator) : Bool :=
  s.present loc && s.displayed loc

/-- `EC.element_to_be_clickable`: visible and enabled. -/
def Snapshot.clickable (s : Snapshot) (loc : Locator) : Bool :=
  s.visible loc && s.enabled loc

/-- The page over time: snapshot at each tick of the test double. -/
abbrev Dom := Nat → Snapshot

/-- The exceptions that occur in the repository: the two Selenium
exceptions caught by the parsers' `except` clauses, and the six domain
errors of exceptions.py. -/
inductive PyError where
  | noSuchElement
  | timeoutExn
  | undefinedError
  | serviceUnavailableError
  | fieldFormatError
  | innNotFoundError
  | dataVerificationError
  | serviceCaptchaError
deriving DecidableEq, Repr

/-- The six domain errors of exceptions.py (everything except the two
Selenium session-level signals). -/
def PyError.isDomain : PyError → Bool
  | .noSuchElement => false
  | .timeoutExn => false
  | _ => true

/-- One driver interaction, as recorded in the trace. -/
inductive Event where
  | findElement (loc : Locator)
  | isDisplayed (loc : Locator)
  | waitVisibility (loc : Locator) (timeout : ℚ)
  | waitClickable (loc : Locator) (timeout : ℚ)
  | waitAny (locs : List Locator) (timeout : ℚ)
  | click (loc : Locator)
  | sendKeys (loc : Locator) (s : String)
  | setValue (loc : Locator) (s : String)
  | readText (loc : Locator)
  | setImplicitWait (timeout : ℚ)
deriving DecidableEq, Repr

/-- Driver-session state of a run: current tick and the trace of
interactions performed so far. -/
structure St where
  tick : Nat
  trace : List Event
deriving Repr

/-- Record one interaction: append the event, advance the tick. -/
def St.log (st : St) (e : Event) : St :=
  ⟨st.tick + 1, st.trace ++ [e]⟩

/-- The effect monad of a parser run: reads the page, threads the
session state, raises Python exceptions. -/
abbrev M (α : Type) := Dom → St → Except PyError α × St

def M.pure (a : α) : M α := fun _ st => (.ok a, st)

def M.raise (e : PyError) : M α := fun _ st => (.error e, st)

def M.bind (x : M α) (f : α → M β) : M β := fun dom st =>
  match x dom st with
  | (.ok a, st') => f a dom st'
  | (.error e, st') => (.error e, st')

/-- Run from a fresh session state. -/
def M.run (x : M α) (dom : Dom) : Except PyError α × St :=
  x dom ⟨0, []⟩

/-- Lift a pure `Except` computation (a Python helper that may raise). -/
def M.liftExcept (x : Except PyError α) : M α := fun _ st => (x, st)

/-- `with suppress(exn): body` for a body with no result. -/
def suppressExn (exn : PyError) (x : M Unit) : M Unit := fun dom st =>
  match x dom st with
  | (.error e, st') => if e = exn then (.ok (), st') else (.error e, st')
  | r => r

/-- `with suppress(exn): ... return v` followed by `return d` when the
suppressed exception fires. -/
def suppressOr (exn : PyError) (d : α) (x : M α) : M α := fun dom st =>
  match x dom st with
  | (.error e, st') => if e = exn then (.ok d, st') else (.error e, st')
  | r => r

/-- `try: x finally: fin` (`fin` never raises in this repository). -/
def finallyDo (x : M α) (fin : M Unit) : M α := fun dom st =>
  match x dom st with
  | (.ok a, st') =>
    (match fin dom st' with
     | (.ok _, st'') => (.ok a, st'')
     | (.error e, st'') => (.error e, st''))
  | (.error e, st') =>
    (match fin dom st' with
     | (.ok _, st'') => (.error e, st'')
     | (.error e2, st'') => (.error e2, st''))

/-! ### Selenium driver primitives -/

/-- `driver.find_element(by, value)`: raises `NoSuchElementException`
when the element is absent.  The returned `WebElement` is modelled by
its locator. -/
def find_element (loc : Locator) : M Locator := fun dom st =>
  ((if (dom st.tick).present loc then .ok loc else .error .noSuchElement),
   st.log (.findElement loc))

/-- `element.is_displayed()`. -/
def is_displayed (loc : Locator) : M Bool := fun dom st =>
  (.ok ((dom st.tick).displayed loc), st.log (.isDisplayed loc))

/-- `WebDriverWait(driver, t).until(EC.visibility_of_element_located(loc))`. -/
def wait_until_visible (loc : Locator) (t : ℚ) : M Locator := fun dom st =>
  ((if (dom st.tick).visible loc then .ok loc else .error .timeoutExn),
   st.log (.waitVisibility loc t))

/-- `WebDriverWait(driver, t).until(EC.element_to_be_clickable(loc))`. -/
def wait_until_clickable (loc : Locator) (t : ℚ) : M Locator := fun dom st =>
  ((if (dom st.tick).clickable loc then .ok loc else .error .timeoutExn),
   st.log (.waitClickable loc t))

/-- `WebDriverWait(driver, t).until(EC.any_of(visibility_of ...))`. -/
def wait_until_any_visible (locs : List Locator) (t : ℚ) : M Unit := fun dom st =>
  ((if locs.any (dom st.tick).visible then .ok () else .error .timeoutExn),
   st.log (.waitAny locs t))

/-- `element.click()` or `execute_script("arguments[0].click()", el)`. -/
def click (loc : Locator) : M Unit := fun _ st =>
  (.ok (), st.log (.click loc))

/-- `element.send_keys(s)`. -/
def send_keys (loc : Locator) (s : String) : M Unit := fun _ st =>
  (.ok (), st.log (.sendKeys loc s))

/-- `execute_script("arguments[0].value = arguments[1]", el, s)`. -/
def set_value (loc : Locator) (s : String) : M Unit := fun _ st =>
  (.ok (), st.log (.setValue loc s))

/-- `element.text`. -/
def read_text (loc : Locator) : M String := fun dom st =>
  (.ok ((dom st.tick).text loc), st.log (.readText loc))

/-- `driver.implicitly_wait(t)`: affects only the timing of
`find_element`, not its outcome against the test double. -/
def implicitly_wait (t : ℚ) : M Unit := fun _ st =>
  (.ok (), st.log (.setImplicitWait t))

/-! ### base.py -/

/-- The line `timeout = timeout or self.timeout` of
`BaseParser.wait_for_element_visibility` / `wait_for_element_clickable`:
Python `or` falls back when the explicit argument is `None` *or* a
falsy number, i.e. `0`. -/
def orTimeout (timeout : Option ℚ) (sessionTimeout : ℚ) : ℚ :=
  match timeout with
  | none => sessionTimeout
  | some t => if t = 0 then sessionTimeout else t

namespace BaseParser

/-- `BaseParser.wait_for_element_visibility(by, value, timeout=None)`. -/
def wait_for_element_visibility (sessionTimeout : ℚ) (loc : Locator)
    (timeout : Option ℚ) : M Locator :=
  wait_until_visible loc (orTimeout timeout sessionTimeout)

/-- `BaseParser.wait_for_element_clickable(by, value, timeout=None)`. -/
def wait_for_element_clickable (sessionTimeout : ℚ) (loc : Locator)
    (timeout : Option ℚ) : M Locator :=
  wait_until_clickable loc (orTimeout timeout sessionTimeout)

end BaseParser

/-- The common `except NoSuchElementException: raise UndefinedError` /
`except TimeoutException: raise ServiceUnavailableError` pair shared by
every parser's `parse`. -/
def handleRes : Except PyError α → Except PyError α
  | .error .noSuchElement => .error .undefinedError
  | .error .timeoutExn => .error .serviceUnavailableError
  | r => r

/-- Wrap a parser body in the shared `try/except` of `parse`. -/
def handleSelenium (x : M α) : M α := fun dom st =>
  let r := x dom st
  (handleRes r.1, r.2)

/-! ### parser_arbitr.py — ArbitrParser -/

namespace ArbitrParser

def closeNotificationBtn : Locator :=
  ⟨.XPATH, "//*[@id=\"js\"]/div[13]/div[2]/div/div/div/div/a[1]"⟩

def innField : Locator := ⟨.XPATH, "//*[@id=\"sug-participants\"]/div/textarea"⟩

def submitBtn : Locator := ⟨.XPATH, "//*[@id=\"b-form-submit\"]/div/button"⟩

def noResultsMarker : Locator := ⟨.CLASS_NAME, "b-noResults"⟩

def resultsMarker : Locator := ⟨.CLASS_NAME, "b-results"⟩

/-- `ArbitrParser._close_notification`; `time.sleep(uniform(1, 1.5))`
performs no driver interaction and is not modelled. -/
def _close_notification (timeout : ℚ) : M Unit :=
  suppressExn .timeoutExn
    (M.bind (BaseParser.wait_for_element_clickable timeout closeNotificationBtn (some 5))
      fun close_btn => click close_btn)

/-- `ArbitrParser._input_inn`. -/
def _input_inn (timeout : ℚ) (inn : String) : M Unit :=
  M.bind (BaseParser.wait_for_element_visibility timeout innField none)
    fun inn_field => send_keys inn_field inn

/-- `ArbitrParser._submit_search`. -/
def _submit_search (timeout : ℚ) : M Unit :=
  M.bind (BaseParser.wait_for_element_clickable timeout submitBtn none)
    fun submit_button => click submit_button

/-- `ArbitrParser._wait_for_result_display`. -/
def _wait_for_result_display (timeout : ℚ) : M Unit :=
  wait_until_any_visible [noResultsMarker, resultsMarker] timeout

/-- `ArbitrParser._is_element_displayed`. -/
def _is_element_displayed (loc : Locator) : M Bool :=
  suppressOr .noSuchElement false
    (M.bind (find_element loc) fun element => is_displayed element)

/-- `ArbitrParser._check_result`. -/
def _check_result (timeout : ℚ) : M Bool :=
  M.bind (_wait_for_result_display timeout) fun _ =>
  M.bind (_is_element_displayed noResultsMarker) fun noRes =>
  if noRes then M.pure false
  else
    M.bind (_is_element_displayed resultsMarker) fun res =>
    if res then M.pure true
    else M.raise .undefinedError

/-- The `try` block of `ArbitrParser.parse`. -/
def parse_body (timeout : ℚ) (inn : String) : M Bool :=
  M.bind (_close_notification timeout) fun _ =>
  M.bind (_input_inn timeout inn) fun _ =>
  M.bind (_submit_search timeout) fun _ =>
  _check_result timeout

/-- `ArbitrParser.parse`. -/
def parse (timeout : ℚ) (inn : String) : M Bool :=
  handleSelenium (parse_body timeout inn)

end ArbitrParser

/-! ### parser_inn.py — InnParser -/

namespace InnParser

def unichk0 : Locator := ⟨.XPATH, "//*[@id=\"unichk_0\"]"⟩

def btnContinue : Locator := ⟨.XPATH, "//*[@id=\"btnContinue\"]"⟩

def famField : Locator := ⟨.XPATH, "//*[@id=\"fam\"]"⟩

def namField : Locator := ⟨.XPATH, "//*[@id=\"nam\"]"⟩

def otchField : Locator := ⟨.XPATH, "//*[@id=\"otch\"]"⟩

def bdateField : Locator := ⟨.XPATH, "//*[@id=\"bdate\"]"⟩

def docnoField : Locator := ⟨.XPATH, "//*[@id=\"docno\"]"⟩

def btnSend : Locator := ⟨.XPATH, "//*[@id=\"btn_send\"]"⟩

def fieldErrorsMarker : Locator := ⟨.CLASS_NAME, "field-errors"⟩

def uniDialogData : Locator := ⟨.XPATH, "//*[@id=\"uniDialogData\"]"⟩

def result0 : Locator := ⟨.ID, "result_0"⟩

def result1 : Locator := ⟨.ID, "result_1"⟩

def result3 : Locator := ⟨.ID, "result_3"⟩

def resultErr : Locator := ⟨.ID, "result_err"⟩

def resultInn : Locator := ⟨.XPATH, "//*[@id=\"resultInn\"]"⟩

/-- `InnParser._find_and_click`: `driver.find_element` then a scripted
click, returning whether the element existed; `NoSuchElementException`
is suppressed into `False`. -/
def _find_and_click (loc : Locator) : M Bool :=
  suppressOr .noSuchElement false
    (M.bind (find_element loc) fun element =>
     M.bind (click element) fun _ => M.pure true)

/-- `InnParser._bypass_personal_data_block`. -/
def _bypass_personal_data_block : M Unit :=
  M.bind (_find_and_click unichk0) fun personal_data =>
  if personal_data then
    M.bind (_find_and_click btnContinue) fun _ => M.pure ()
  else M.pure ()

/-- `InnParser._fill_field`. -/
def _fill_field (timeout : ℚ) (loc : Locator) (value : String) : M Unit :=
  M.bind (BaseParser.wait_for_element_visibility timeout loc none)
    fun field => set_value field value

/-- `InnParser._fill_personal_info`. -/
def _fill_personal_info (timeout : ℚ)
    (surname name lastname birthdate passport : String) : M Unit :=
  M.bind (_fill_field timeout famField surname) fun _ =>
  M.bind (_fill_field timeout namField name) fun _ =>
  M.bind (_fill_field timeout otchField lastname) fun _ =>
  M.bind (_fill_field timeout bdateField birthdate) fun _ =>
  _fill_field timeout docnoField passport

/-- `InnParser._submit_form`. -/
def _submit_form : M Unit :=
  M.bind (_find_and_click btnSend) fun _ => M.pure ()

/-- `InnParser._check_for_errors`: a found `WebElement` is always
truthy, so a successful 2-unit wait always raises `FieldFormatError`. -/
def _check_for_errors (timeout : ℚ) : M Unit :=
  suppressExn .timeoutExn
    (M.bind (BaseParser.wait_for_element_visibility timeout fieldErrorsMarker (some 2))
      fun _ => M.raise .fieldFormatError)

/-- `InnParser._check_for_captcha`. -/
def _check_for_captcha (timeout : ℚ) : M Unit :=
  suppressExn .timeoutExn
    (M.bind (BaseParser.wait_for_element_visibility timeout uniDialogData (some 3))
      fun _ => M.raise .serviceCaptchaError)

/-- `InnParser._validate_input`. -/
def _validate_input (timeout : ℚ) : M Unit :=
  M.bind (implicitly_wait 0) fun _ =>
  finallyDo
    (M.bind (_check_for_errors timeout) fun _ => _check_for_captcha timeout)
    (implicitly_wait timeout)

/-- `InnParser._wait_for_result_display`. -/
def _wait_for_result_display (timeout : ℚ) : M Unit :=
  wait_until_any_visible [result0, result1, result3, resultErr] timeout

/-- `InnParser._is_element_displayed` (same body as the other parsers). -/
def _is_element_displayed (loc : Locator) : M Bool :=
  suppressOr .noSuchElement false
    (M.bind (find_element loc) fun element => is_displayed element)

/-- `InnParser._parse_result`. -/
def _parse_result (timeout : ℚ) : M String :=
  M.bind (_wait_for_result_display timeout) fun _ =>
  M.bind (_is_element_displayed result0) fun r0 =>
  if r0 then M.raise .innNotFoundError
  else
    M.bind (_is_element_displayed result1) fun r1 =>
    if r1 then
      M.bind (find_element resultInn) fun element => read_text element
    else
      M.bind (_is_element_displayed result3) fun r3 =>
      if r3 then M.raise .dataVerificationError
      else
        M.bind (_is_element_displayed resultErr) fun rerr =>
        if rerr then M.raise .serviceUnavailableError
        else M.raise .undefinedError

/-- The `try` block of `InnParser.parse`. -/
def parse_body (timeout : ℚ)
    (surname name lastname birthdate passport : String) : M String :=
  M.bind _bypass_personal_data_block fun _ =>
  M.bind (_fill_personal_info timeout surname name lastname birthdate passport) fun _ =>
  M.bind _submit_form fun _ =>
  M.bind (_validate_input timeout) fun _ =>
  _parse_result timeout

/-- `InnParser.parse`. -/
def parse (timeout : ℚ)
    (surname name lastname birthdate passport : String) : M String :=
  handleSelenium (parse_body timeout surname name lastname birthdate passport)

end InnParser

/-! ### parser_npd.py — NpdParser -/

namespace NpdParser

def tbINN : Locator := ⟨.XPATH, "//*[@id=\"ctl00_ctl00_tbINN\"]"⟩

def tbDate : Locator := ⟨.XPATH, "//*[@id=\"ctl00_ctl00_tbDate\"]"⟩

def btSend : Locator := ⟨.XPATH, "//*[@id=\"ctl00_ctl00_btSend\"]"⟩

def requiredFieldValidator1 : Locator :=
  ⟨.XPATH, "//*[@id=\"ctl00_ctl00_RequiredFieldValidator1\"]"⟩

def cvInn : Locator := ⟨.XPATH, "//*[@id=\"ctl00_ctl00_cv_Inn\"]"⟩

def requiredFieldValidator2 : Locator :=
  ⟨.XPATH, "//*[@id=\"ctl00_ctl00_RequiredFieldValidator2\"]"⟩

def customValidator1 : Locator :=
  ⟨.XPATH, "//*[@id=\"ctl00_ctl00_CustomValidator1\"]"⟩

def resultBlock : Locator := ⟨.XPATH, "//*[@id=\"content\"]/div/div/div[1]/div[5]"⟩

/-- `NpdParser._fill_inn_field`. -/
def _fill_inn_field (timeout : ℚ) (inn : String) : M Unit :=
  M.bind (BaseParser.wait_for_element_visibility timeout tbINN none)
    fun inn_field => set_value inn_field inn

/-- `NpdParser._fill_date_field`; `date.today().strftime(...)` is an
environment input, passed here as the `current_date` argument. -/
def _fill_date_field (timeout : ℚ) (current_date : String) : M Unit :=
  M.bind (BaseParser.wait_for_element_visibility timeout tbDate none)
    fun date_field => set_value date_field current_date

/-- `NpdParser._submit_form`. -/
def _submit_form (timeout : ℚ) : M Unit :=
  M.bind (BaseParser.wait_for_element_clickable timeout btSend none)
    fun submit_button => click submit_button

/-- `NpdParser._check_entry_validation`: a 2-unit `any_of` wait over the
four client-side validator markers; success raises `FieldFormatError`. -/
def _check_entry_validation : M Unit :=
  suppressExn .timeoutExn
    (M.bind (wait_until_any_visible
        [requiredFieldValidator1, cvInn, requiredFieldValidator2, customValidator1] 2)
      fun _ => M.raise .fieldFormatError)

/-- `NpdParser._get_result_text`. -/
def _get_result_text (timeout : ℚ) : M String :=
  M.bind (wait_until_visible resultBlock timeout) fun result_element =>
  M.bind (read_text result_element) fun t => M.pure t.trim

/-- The codepoint ranges on which Python `str.isalnum()` holds
(Unicode 14.0 character tables, CPython 3.11): all Unicode letters plus
the decimal, digit and numeric characters. -/
def wordRanges : List (Nat × Nat) := [
    (0x30, 0x39), (0x41, 0x5A), (0x61, 0x7A), (0xAA, 0xAA), (0xB2, 0xB3), (0xB5, 0xB5),
    (0xB9, 0xBA), (0xBC, 0xBE), (0xC0, 0xD6), (0xD8, 0xF6), (0xF8, 0x2C1), (0x2C6, 0x2D1),
    (0x2E0, 0x2E4), (0x2EC, 0x2EC), (0x2EE, 0x2EE), (0x370, 0x374), (0x376, 0x377), (0x37A, 0x37D),
    (0x37F, 0x37F), (0x386, 0x386), (0x388, 0x38A), (0x38C, 0x38C), (0x38E, 0x3A1), (0x3A3, 0x3F5),
    (0x3F7, 0x481), (0x48A, 0x52F), (0x531, 0x556), (0x559, 0x559), (0x560, 0x588), (0x5D0, 0x5EA),
    (0x5EF, 0x5F2), (0x620, 0x64A), (0x660, 0x669), (0x66E, 0x66F), (0x671, 0x6D3), (0x6D5, 0x6D5),
    (0x6E5, 0x6E6), (0x6EE, 0x6FC), (0x6FF, 0x6FF), (0x710, 0x710), (0x712, 0x72F), (0x74D, 0x7A5),
    (0x7B1, 0x7B1), (0x7C0, 0x7EA), (0x7F4, 0x7F5), (0x7FA, 0x7FA), (0x800, 0x815), (0x81A, 0x81A),
    (0x824, 0x824), (0x828, 0x828), (0x840, 0x858), (0x860, 0x86A), (0x870, 0x887), (0x889, 0x88E),
    (0x8A0, 0x8C9), (0x904, 0x939), (0x93D, 0x93D), (0x950, 0x950), (0x958, 0x961), (0x966, 0x96F),
    (0x971, 0x980), (0x985, 0x98C), (0x98F, 0x990), (0x993, 0x9A8), (0x9AA, 0x9B0), (0x9B2, 0x9B2),
    (0x9B6, 0x9B9), (0x9BD, 0x9BD), (0x9CE, 0x9CE), (0x9DC, 0x9DD), (0x9DF, 0x9E1), (0x9E6, 0x9F1),
    (0x9F4, 0x9F9), (0x9FC, 0x9FC), (0xA05, 0xA0A), (0xA0F, 0xA10), (0xA13, 0xA28), (0xA2A, 0xA30),
    (0xA32, 0xA33), (0xA35, 0xA36), (0xA38, 0xA39), (0xA59, 0xA5C), (0xA5E, 0xA5E), (0xA66, 0xA6F),
    (0xA72, 0xA74), (0xA85, 0xA8D), (0xA8F, 0xA91), (0xA93, 0xAA8), (0xAAA, 0xAB0), (0xAB2, 0xAB3),
    (0xAB5, 0xAB9), (0xABD, 0xABD), (0xAD0, 0xAD0), (0xAE0, 0xAE1), (0xAE6, 0xAEF), (0xAF9, 0xAF9),
    (0xB05, 0xB0C), (0xB0F, 0xB10), (0xB13, 0xB28), (0xB2A, 0xB30), (0xB32, 0xB33), (0xB35, 0xB39),
    (0xB3D, 0xB3D), (0xB5C, 0xB5D), (0xB5F, 0xB61), (0xB66, 0xB6F), (0xB71, 0xB77), (0xB83, 0xB83),
    (0xB85, 0xB8A), (0xB8E, 0xB90), (0xB92, 0xB95), (0xB99, 0xB9A), (0xB9C, 0xB9C), (0xB9E, 0xB9F),
    (0xBA3, 0xBA4), (0xBA8, 0xBAA), (0xBAE, 0xBB9), (0xBD0, 0xBD0), (0xBE6, 0xBF2), (0xC05, 0xC0C),
    (0xC0E, 0xC10), (0xC12, 0xC28), (0xC2A, 0xC39), (0xC3D, 0xC3D), (0xC58, 0xC5A), (0xC5D, 0xC5D),
    (0xC60, 0xC61), (0xC66, 0xC6F), (0xC78, 0xC7E), (0xC80, 0xC80), (0xC85, 0xC8C), (0xC8E, 0xC90),
    (0xC92, 0xCA8), (0xCAA, 0xCB3), (0xCB5, 0xCB9), (0xCBD, 0xCBD), (0xCDD, 0xCDE), (0xCE0, 0xCE1),
    (0xCE6, 0xCEF), (0xCF1, 0xCF2), (0xD04, 0xD0C), (0xD0E, 0xD10), (0xD12, 0xD3A), (0xD3D, 0xD3D),
    (0xD4E, 0xD4E), (0xD54, 0xD56), (0xD58, 0xD61), (0xD66, 0xD78), (0xD7A, 0xD7F), (0xD85, 0xD96),
    (0xD9A, 0xDB1), (0xDB3, 0xDBB), (0xDBD, 0xDBD), (0xDC0, 0xDC6), (0xDE6, 0xDEF), (0xE01, 0xE30),
    (0xE32, 0xE33), (0xE40, 0xE46), (0xE50, 0xE59), (0xE81, 0xE82), (0xE84, 0xE84), (0xE86, 0xE8A),
    (0xE8C, 0xEA3), (0xEA5, 0xEA5), (0xEA7, 0xEB0), (0xEB2, 0xEB3), (0xEBD, 0xEBD), (0xEC0, 0xEC4),
    (0xEC6, 0xEC6), (0xED0, 0xED9), (0xEDC, 0xEDF), (0xF00, 0xF00), (0xF20, 0xF33), (0xF40, 0xF47),
    (0xF49, 0xF6C), (0xF88, 0xF8C), (0x1000, 0x102A), (0x103F, 0x1049), (0x1050, 0x1055), (0x105A, 0x105D),
    (0x1061, 0x1061), (0x1065, 0x1066), (0x106E, 0x1070), (0x1075, 0x1081), (0x108E, 0x108E), (0x1090, 0x1099),
    (0x10A0, 0x10C5), (0x10C7, 0x10C7), (0x10CD, 0x10CD), (0x10D0, 0x10FA), (0x10FC, 0x1248), (0x124A, 0x124D),
    (0x1250, 0x1256), (0x1258, 0x1258), (0x125A, 0x125D), (0x1260, 0x1288), (0x128A, 0x128D), (0x1290, 0x12B0),
    (0x12B2, 0x12B5), (0x12B8, 0x12BE), (0x12C0, 0x12C0), (0x12C2, 0x12C5), (0x12C8, 0x12D6), (0x12D8, 0x1310),
    (0x1312, 0x1315), (0x1318, 0x135A), (0x1369, 0x137C), (0x1380, 0x138F), (0x13A0, 0x13F5), (0x13F8, 0x13FD),
    (0x1401, 0x166C), (0x166F, 0x167F), (0x1681, 0x169A), (0x16A0, 0x16EA), (0x16EE, 0x16F8), (0x1700, 0x1711),
    (0x171F, 0x1731), (0x1740, 0x1751), (0x1760, 0x176C), (0x176E, 0x1770), (0x1780, 0x17B3), (0x17D7, 0x17D7),
    (0x17DC, 0x17DC), (0x17E0, 0x17E9), (0x17F0, 0x17F9), (0x1810, 0x1819), (0x1820, 0x1878), (0x1880, 0x1884),
    (0x1887, 0x18A8), (0x18AA, 0x18AA), (0x18B0, 0x18F5), (0x1900, 0x191E), (0x1946, 0x196D), (0x1970, 0x1974),
    (0x1980, 0x19AB), (0x19B0, 0x19C9), (0x19D0, 0x19DA), (0x1A00, 0x1A16), (0x1A20, 0x1A54), (0x1A80, 0x1A89),
    (0x1A90, 0x1A99), (0x1AA7, 0x1AA7), (0x1B05, 0x1B33), (0x1B45, 0x1B4C), (0x1B50, 0x1B59), (0x1B83, 0x1BA0),
    (0x1BAE, 0x1BE5), (0x1C00, 0x1C23), (0x1C40, 0x1C49), (0x1C4D, 0x1C7D), (0x1C80, 0x1C88), (0x1C90, 0x1CBA),
    (0x1CBD, 0x1CBF), (0x1CE9, 0x1CEC), (0x1CEE, 0x1CF3), (0x1CF5, 0x1CF6), (0x1CFA, 0x1CFA), (0x1D00, 0x1DBF),
    (0x1E00, 0x1F15), (0x1F18, 0x1F1D), (0x1F20, 0x1F45), (0x1F48, 0x1F4D), (0x1F50, 0x1F57), (0x1F59, 0x1F59),
    (0x1F5B, 0x1F5B), (0x1F5D, 0x1F5D), (0x1F5F, 0x1F7D), (0x1F80, 0x1FB4), (0x1FB6, 0x1FBC), (0x1FBE, 0x1FBE),
    (0x1FC2, 0x1FC4), (0x1FC6, 0x1FCC), (0x1FD0, 0x1FD3), (0x1FD6, 0x1FDB), (0x1FE0, 0x1FEC), (0x1FF2, 0x1FF4),
    (0x1FF6, 0x1FFC), (0x2070, 0x2071), (0x2074, 0x2079), (0x207F, 0x2089), (0x2090, 0x209C), (0x2102, 0x2102),
    (0x2107, 0x2107), (0x210A, 0x2113), (0x2115, 0x2115), (0x2119, 0x211D), (0x2124, 0x2124), (0x2126, 0x2126),
    (0x2128, 0x2128), (0x212A, 0x212D), (0x212F, 0x2139), (0x213C, 0x213F), (0x2145, 0x2149), (0x214E, 0x214E),
    (0x2150, 0x2189), (0x2460, 0x249B), (0x24EA, 0x24FF), (0x2776, 0x2793), (0x2C00, 0x2CE4), (0x2CEB, 0x2CEE),
    (0x2CF2, 0x2CF3), (0x2CFD, 0x2CFD), (0x2D00, 0x2D25), (0x2D27, 0x2D27), (0x2D2D, 0x2D2D), (0x2D30, 0x2D67),
    (0x2D6F, 0x2D6F), (0x2D80, 0x2D96), (0x2DA0, 0x2DA6), (0x2DA8, 0x2DAE), (0x2DB0, 0x2DB6), (0x2DB8, 0x2DBE),
    (0x2DC0, 0x2DC6), (0x2DC8, 0x2DCE), (0x2DD0, 0x2DD6), (0x2DD8, 0x2DDE), (0x2E2F, 0x2E2F), (0x3005, 0x3007),
    (0x3021, 0x3029), (0x3031, 0x3035), (0x3038, 0x303C), (0x3041, 0x3096), (0x309D, 0x309F), (0x30A1, 0x30FA),
    (0x30FC, 0x30FF), (0x3105, 0x312F), (0x3131, 0x318E), (0x3192, 0x3195), (0x31A0, 0x31BF), (0x31F0, 0x31FF),
    (0x3220, 0x3229), (0x3248, 0x324F), (0x3251, 0x325F), (0x3280, 0x3289), (0x32B1, 0x32BF), (0x3400, 0x4DBF),
    (0x4E00, 0xA48C), (0xA4D0, 0xA4FD), (0xA500, 0xA60C), (0xA610, 0xA62B), (0xA640, 0xA66E), (0xA67F, 0xA69D),
    (0xA6A0, 0xA6EF), (0xA717, 0xA71F), (0xA722, 0xA788), (0xA78B, 0xA7CA), (0xA7D0, 0xA7D1), (0xA7D3, 0xA7D3),
    (0xA7D5, 0xA7D9), (0xA7F2, 0xA801), (0xA803, 0xA805), (0xA807, 0xA80A), (0xA80C, 0xA822), (0xA830, 0xA835),
    (0xA840, 0xA873), (0xA882, 0xA8B3), (0xA8D0, 0xA8D9), (0xA8F2, 0xA8F7), (0xA8FB, 0xA8FB), (0xA8FD, 0xA8FE),
    (0xA900, 0xA925), (0xA930, 0xA946), (0xA960, 0xA97C), (0xA984, 0xA9B2), (0xA9CF, 0xA9D9), (0xA9E0, 0xA9E4),
    (0xA9E6, 0xA9FE), (0xAA00, 0xAA28), (0xAA40, 0xAA42), (0xAA44, 0xAA4B), (0xAA50, 0xAA59), (0xAA60, 0xAA76),
    (0xAA7A, 0xAA7A), (0xAA7E, 0xAAAF), (0xAAB1, 0xAAB1), (0xAAB5, 0xAAB6), (0xAAB9, 0xAABD), (0xAAC0, 0xAAC0),
    (0xAAC2, 0xAAC2), (0xAADB, 0xAADD), (0xAAE0, 0xAAEA), (0xAAF2, 0xAAF4), (0xAB01, 0xAB06), (0xAB09, 0xAB0E),
    (0xAB11, 0xAB16), (0xAB20, 0xAB26), (0xAB28, 0xAB2E), (0xAB30, 0xAB5A), (0xAB5C, 0xAB69), (0xAB70, 0xABE2),
    (0xABF0, 0xABF9), (0xAC00, 0xD7A3), (0xD7B0, 0xD7C6), (0xD7CB, 0xD7FB), (0xF900, 0xFA6D), (0xFA70, 0xFAD9),
    (0xFB00, 0xFB06), (0xFB13, 0xFB17), (0xFB1D, 0xFB1D), (0xFB1F, 0xFB28), (0xFB2A, 0xFB36), (0xFB38, 0xFB3C),
    (0xFB3E, 0xFB3E), (0xFB40, 0xFB41), (0xFB43, 0xFB44), (0xFB46, 0xFBB1), (0xFBD3, 0xFD3D), (0xFD50, 0xFD8F),
    (0xFD92, 0xFDC7), (0xFDF0, 0xFDFB), (0xFE70, 0xFE74), (0xFE76, 0xFEFC), (0xFF10, 0xFF19), (0xFF21, 0xFF3A),
    (0xFF41, 0xFF5A), (0xFF66, 0xFFBE), (0xFFC2, 0xFFC7), (0xFFCA, 0xFFCF), (0xFFD2, 0xFFD7), (0xFFDA, 0xFFDC),
    (0x10000, 0x1000B), (0x1000D, 0x10026), (0x10028, 0x1003A), (0x1003C, 0x1003D), (0x1003F, 0x1004D), (0x10050, 0x1005D),
    (0x10080, 0x100FA), (0x10107, 0x10133), (0x10140, 0x10178), (0x1018A, 0x1018B), (0x10280, 0x1029C), (0x102A0, 0x102D0),
    (0x102E1, 0x102FB), (0x10300, 0x10323), (0x1032D, 0x1034A), (0x10350, 0x10375), (0x10380, 0x1039D), (0x103A0, 0x103C3),
    (0x103C8, 0x103CF), (0x103D1, 0x103D5), (0x10400, 0x1049D), (0x104A0, 0x104A9), (0x104B0, 0x104D3), (0x104D8, 0x104FB),
    (0x10500, 0x10527), (0x10530, 0x10563), (0x10570, 0x1057A), (0x1057C, 0x1058A), (0x1058C, 0x10592), (0x10594, 0x10595),
    (0x10597, 0x105A1), (0x105A3, 0x105B1), (0x105B3, 0x105B9), (0x105BB, 0x105BC), (0x10600, 0x10736), (0x10740, 0x10755),
    (0x10760, 0x10767), (0x10780, 0x10785), (0x10787, 0x107B0), (0x107B2, 0x107BA), (0x10800, 0x10805), (0x10808, 0x10808),
    (0x1080A, 0x10835), (0x10837, 0x10838), (0x1083C, 0x1083C), (0x1083F, 0x10855), (0x10858, 0x10876), (0x10879, 0x1089E),
    (0x108A7, 0x108AF), (0x108E0, 0x108F2), (0x108F4, 0x108F5), (0x108FB, 0x1091B), (0x10920, 0x10939), (0x10980, 0x109B7),
    (0x109BC, 0x109CF), (0x109D2, 0x10A00), (0x10A10, 0x10A13), (0x10A15, 0x10A17), (0x10A19, 0x10A35), (0x10A40, 0x10A48),
    (0x10A60, 0x10A7E), (0x10A80, 0x10A9F), (0x10AC0, 0x10AC7), (0x10AC9, 0x10AE4), (0x10AEB, 0x10AEF), (0x10B00, 0x10B35),
    (0x10B40, 0x10B55), (0x10B58, 0x10B72), (0x10B78, 0x10B91), (0x10BA9, 0x10BAF), (0x10C00, 0x10C48), (0x10C80, 0x10CB2),
    (0x10CC0, 0x10CF2), (0x10CFA, 0x10D23), (0x10D30, 0x10D39), (0x10E60, 0x10E7E), (0x10E80, 0x10EA9), (0x10EB0, 0x10EB1),
    (0x10F00, 0x10F27), (0x10F30, 0x10F45), (0x10F51, 0x10F54), (0x10F70, 0x10F81), (0x10FB0, 0x10FCB), (0x10FE0, 0x10FF6),
    (0x11003, 0x11037), (0x11052, 0x1106F), (0x11071, 0x11072), (0x11075, 0x11075), (0x11083, 0x110AF), (0x110D0, 0x110E8),
    (0x110F0, 0x110F9), (0x11103, 0x11126), (0x11136, 0x1113F), (0x11144, 0x11144), (0x11147, 0x11147), (0x11150, 0x11172),
    (0x11176, 0x11176), (0x11183, 0x111B2), (0x111C1, 0x111C4), (0x111D0, 0x111DA), (0x111DC, 0x111DC), (0x111E1, 0x111F4),
    (0x11200, 0x11211), (0x11213, 0x1122B), (0x11280, 0x11286), (0x11288, 0x11288), (0x1128A, 0x1128D), (0x1128F, 0x1129D),
    (0x1129F, 0x112A8), (0x112B0, 0x112DE), (0x112F0, 0x112F9), (0x11305, 0x1130C), (0x1130F, 0x11310), (0x11313, 0x11328),
    (0x1132A, 0x11330), (0x11332, 0x11333), (0x11335, 0x11339), (0x1133D, 0x1133D), (0x11350, 0x11350), (0x1135D, 0x11361),
    (0x11400, 0x11434), (0x11447, 0x1144A), (0x11450, 0x11459), (0x1145F, 0x11461), (0x11480, 0x114AF), (0x114C4, 0x114C5),
    (0x114C7, 0x114C7), (0x114D0, 0x114D9), (0x11580, 0x115AE), (0x115D8, 0x115DB), (0x11600, 0x1162F), (0x11644, 0x11644),
    (0x11650, 0x11659), (0x11680, 0x116AA), (0x116B8, 0x116B8), (0x116C0, 0x116C9), (0x11700, 0x1171A), (0x11730, 0x1173B),
    (0x11740, 0x11746), (0x11800, 0x1182B), (0x118A0, 0x118F2), (0x118FF, 0x11906), (0x11909, 0x11909), (0x1190C, 0x11913),
    (0x11915, 0x11916), (0x11918, 0x1192F), (0x1193F, 0x1193F), (0x11941, 0x11941), (0x11950, 0x11959), (0x119A0, 0x119A7),
    (0x119AA, 0x119D0), (0x119E1, 0x119E1), (0x119E3, 0x119E3), (0x11A00, 0x11A00), (0x11A0B, 0x11A32), (0x11A3A, 0x11A3A),
    (0x11A50, 0x11A50), (0x11A5C, 0x11A89), (0x11A9D, 0x11A9D), (0x11AB0, 0x11AF8), (0x11C00, 0x11C08), (0x11C0A, 0x11C2E),
    (0x11C40, 0x11C40), (0x11C50, 0x11C6C), (0x11C72, 0x11C8F), (0x11D00, 0x11D06), (0x11D08, 0x11D09), (0x11D0B, 0x11D30),
    (0x11D46, 0x11D46), (0x11D50, 0x11D59), (0x11D60, 0x11D65), (0x11D67, 0x11D68), (0x11D6A, 0x11D89), (0x11D98, 0x11D98),
    (0x11DA0, 0x11DA9), (0x11EE0, 0x11EF2), (0x11FB0, 0x11FB0), (0x11FC0, 0x11FD4), (0x12000, 0x12399), (0x12400, 0x1246E),
    (0x12480, 0x12543), (0x12F90, 0x12FF0), (0x13000, 0x1342E), (0x14400, 0x14646), (0x16800, 0x16A38), (0x16A40, 0x16A5E),
    (0x16A60, 0x16A69), (0x16A70, 0x16ABE), (0x16AC0, 0x16AC9), (0x16AD0, 0x16AED), (0x16B00, 0x16B2F), (0x16B40, 0x16B43),
    (0x16B50, 0x16B59), (0x16B5B, 0x16B61), (0x16B63, 0x16B77), (0x16B7D, 0x16B8F), (0x16E40, 0x16E96), (0x16F00, 0x16F4A),
    (0x16F50, 0x16F50), (0x16F93, 0x16F9F), (0x16FE0, 0x16FE1), (0x16FE3, 0x16FE3), (0x17000, 0x187F7), (0x18800, 0x18CD5),
    (0x18D00, 0x18D08), (0x1AFF0, 0x1AFF3), (0x1AFF5, 0x1AFFB), (0x1AFFD, 0x1AFFE), (0x1B000, 0x1B122), (0x1B150, 0x1B152),
    (0x1B164, 0x1B167), (0x1B170, 0x1B2FB), (0x1BC00, 0x1BC6A), (0x1BC70, 0x1BC7C), (0x1BC80, 0x1BC88), (0x1BC90, 0x1BC99),
    (0x1D2E0, 0x1D2F3), (0x1D360, 0x1D378), (0x1D400, 0x1D454), (0x1D456, 0x1D49C), (0x1D49E, 0x1D49F), (0x1D4A2, 0x1D4A2),
    (0x1D4A5, 0x1D4A6), (0x1D4A9, 0x1D4AC), (0x1D4AE, 0x1D4B9), (0x1D4BB, 0x1D4BB), (0x1D4BD, 0x1D4C3), (0x1D4C5, 0x1D505),
    (0x1D507, 0x1D50A), (0x1D50D, 0x1D514), (0x1D516, 0x1D51C), (0x1D51E, 0x1D539), (0x1D53B, 0x1D53E), (0x1D540, 0x1D544),
    (0x1D546, 0x1D546), (0x1D54A, 0x1D550), (0x1D552, 0x1D6A5), (0x1D6A8, 0x1D6C0), (0x1D6C2, 0x1D6DA), (0x1D6DC, 0x1D6FA),
    (0x1D6FC, 0x1D714), (0x1D716, 0x1D734), (0x1D736, 0x1D74E), (0x1D750, 0x1D76E), (0x1D770, 0x1D788), (0x1D78A, 0x1D7A8),
    (0x1D7AA, 0x1D7C2), (0x1D7C4, 0x1D7CB), (0x1D7CE, 0x1D7FF), (0x1DF00, 0x1DF1E), (0x1E100, 0x1E12C), (0x1E137, 0x1E13D),
    (0x1E140, 0x1E149), (0x1E14E, 0x1E14E), (0x1E290, 0x1E2AD), (0x1E2C0, 0x1E2EB), (0x1E2F0, 0x1E2F9), (0x1E7E0, 0x1E7E6),
    (0x1E7E8, 0x1E7EB), (0x1E7ED, 0x1E7EE), (0x1E7F0, 0x1E7FE), (0x1E800, 0x1E8C4), (0x1E8C7, 0x1E8CF), (0x1E900, 0x1E943),
    (0x1E94B, 0x1E94B), (0x1E950, 0x1E959), (0x1EC71, 0x1ECAB), (0x1ECAD, 0x1ECAF), (0x1ECB1, 0x1ECB4), (0x1ED01, 0x1ED2D),
    (0x1ED2F, 0x1ED3D), (0x1EE00, 0x1EE03), (0x1EE05, 0x1EE1F), (0x1EE21, 0x1EE22), (0x1EE24, 0x1EE24), (0x1EE27, 0x1EE27),
    (0x1EE29, 0x1EE32), (0x1EE34, 0x1EE37), (0x1EE39, 0x1EE39), (0x1EE3B, 0x1EE3B), (0x1EE42, 0x1EE42), (0x1EE47, 0x1EE47),
    (0x1EE49, 0x1EE49), (0x1EE4B, 0x1EE4B), (0x1EE4D, 0x1EE4F), (0x1EE51, 0x1EE52), (0x1EE54, 0x1EE54), (0x1EE57, 0x1EE57),
    (0x1EE59, 0x1EE59), (0x1EE5B, 0x1EE5B), (0x1EE5D, 0x1EE5D), (0x1EE5F, 0x1EE5F), (0x1EE61, 0x1EE62), (0x1EE64, 0x1EE64),
    (0x1EE67, 0x1EE6A), (0x1EE6C, 0x1EE72), (0x1EE74, 0x1EE77), (0x1EE79, 0x1EE7C), (0x1EE7E, 0x1EE7E), (0x1EE80, 0x1EE89),
    (0x1EE8B, 0x1EE9B), (0x1EEA1, 0x1EEA3), (0x1EEA5, 0x1EEA9), (0x1EEAB, 0x1EEBB), (0x1F100, 0x1F10C), (0x1FBF0, 0x1FBF9),
    (0x20000, 0x2A6DF), (0x2A700, 0x2B738), (0x2B740, 0x2B81D), (0x2B820, 0x2CEA1), (0x2CEB0, 0x2EBE0), (0x2F800, 0x2FA1D),
    (0x30000, 0x3134A)]

/-- Python `\\w` for Unicode (str) patterns, which defines the `\\b`
boundaries of the pattern of `_analyze_result`: CPython classifies a
character as a word character iff `str.isalnum()` holds of it or it is
the underscore (`SRE_UNI_IS_WORD`). -/
def wordChar (c : Char) : Bool :=
  c = '_' || wordRanges.any (fun r => r.1 ≤ c.toNat && c.toNat ≤ r.2)

/-- First alternative of the pattern: `не является`. -/
def phrase_ne : List Char := "не является".data

/-- Second alternative of the pattern: `является`. -/
def phrase_ya : List Char := "является".data

/-- Does `l` start with `p`? -/
def startsWithL : List Char → List Char → Bool
  | _, [] => true
  | [], _ :: _ => false
  | c :: cs, d :: ds => c = d && startsWithL cs ds

/-- Does `p` occur as a contiguous substring of `l`? -/
def containsL : List Char → List Char → Bool
  | [], p => startsWithL [] p
  | l@(_ :: tl), p => startsWithL l p || containsL tl p

/-- `\b` holds at offset `i` against the character at `i` being a word
character on exactly one side; here: the character at position `i` (if
any) is not a word character. -/
def nonWordAt (l : List Char) (i : Nat) : Bool :=
  match l.get? i with
  | none => true
  | some c => !wordChar c

/-- The pattern alternative `\b<p>\b` matches at position `i` of `l`
(both phrases start and end with word characters, so `\b` amounts to
"the adjacent character, if any, is not a word character"). -/
def matchPat (l : List Char) (i : Nat) (p : List Char) : Bool :=
  (decide (i = 0) || nonWordAt l (i - 1)) &&
    startsWithL (l.drop i) p && nonWordAt l (i + p.length)

/-- The scan of `re.search`: positions are tried left to right, and at
each position the left alternative is preferred. -/
def reSearchFrom (l : List Char) (i : Nat) : Nat → Option (List Char)
  | 0 => none
  | fuel + 1 =>
    if matchPat l i phrase_ne then some phrase_ne
    else if matchPat l i phrase_ya then some phrase_ya
    else reSearchFrom l (i + 1) fuel

/-- `re.search(r"\bне является\b|\bявляется\b", text)`, returning
`match.group()`. -/
def re_search (l : List Char) : Option (List Char) :=
  reSearchFrom l 0 (l.length + 1)

/-- `NpdParser._analyze_result` (a pure `@staticmethod`). -/
def _analyze_result (text : String) : Except PyError Bool :=
  match re_search text.data with
  | none => .error .serviceUnavailableError
  | some m => .ok (m == phrase_ya)

/-- The `try` block of `NpdParser.parse`. -/
def parse_body (timeout : ℚ) (inn current_date : String) : M Bool :=
  M.bind (_fill_inn_field timeout inn) fun _ =>
  M.bind (_fill_date_field timeout current_date) fun _ =>
  M.bind (_submit_form timeout) fun _ =>
  M.bind _check_entry_validation fun _ =>
  M.bind (_get_result_text timeout) fun result_text =>
  M.liftExcept (_analyze_result result_text)

/-- `NpdParser.parse`. -/
def parse (timeout : ℚ) (inn current_date : String) : M Bool :=
  handleSelenium (parse_body timeout inn current_date)

end NpdParser

/-! ### parser_rom.py — RomParser -/

namespace RomParser

def queryField : Locator := ⟨.XPATH, "//*[@id=\"query\"]"⟩

def submitBtn : Locator := ⟨.XPATH, "//*[@id=\"pnlSearch\"]/div[4]/div[2]/button"⟩

def fieldErrorsMarker : Locator := ⟨.CLASS_NAME, "field-errors"⟩

def pnlNoData : Locator := ⟨.ID, "pnlNoData"⟩

def pnlData : Locator := ⟨.ID, "pnlData"⟩

/-- `RomParser._input_inn`. -/
def _input_inn (timeout : ℚ) (inn : String) : M Unit :=
  M.bind (BaseParser.wait_for_element_visibility timeout queryField none)
    fun inn_field => set_value inn_field inn

/-- `RomParser._submit_search`. -/
def _submit_search (timeout : ℚ) : M Unit :=
  M.bind (BaseParser.wait_for_element_clickable timeout submitBtn none)
    fun submit_button => click submit_button

/-- `RomParser._check_entry_validation`: a found `WebElement` is always
truthy, so a successful 2-unit wait always raises `FieldFormatError`. -/
def _check_entry_validation (timeout : ℚ) : M Unit :=
  suppressExn .timeoutExn
    (M.bind (BaseParser.wait_for_element_visibility timeout fieldErrorsMarker (some 2))
      fun _ => M.raise .fieldFormatError)

/-- `RomParser._wait_for_result_display`. -/
def _wait_for_result_display (timeout : ℚ) : M Unit :=
  wait_until_any_visible [pnlData, pnlNoData] timeout

/-- `RomParser._is_element_displayed`. -/
def _is_element_displayed (loc : Locator) : M Bool :=
  suppressOr .noSuchElement false
    (M.bind (find_element loc) fun element => is_displayed element)

/-- `RomParser._check_result`. -/
def _check_result (timeout : ℚ) : M Bool :=
  M.bind (_wait_for_result_display timeout) fun _ =>
  M.bind (_is_element_displayed pnlNoData) fun noData =>
  if noData then M.pure false
  else
    M.bind (_is_element_displayed pnlData) fun data =>
    if data then M.pure true
    else M.raise .undefinedError

/-- The `try` block of `RomParser.parse`. -/
def parse_body (timeout : ℚ) (inn : String) : M Bool :=
  M.bind (_input_inn timeout inn) fun _ =>
  M.bind (_submit_search timeout) fun _ =>
  M.bind (_check_entry_validation timeout) fun _ =>
  _check_result timeout

/-- `RomParser.parse`. -/
def parse (timeout : ℚ) (inn : String) : M Bool :=
  handleSelenium (parse_body timeout inn)

end RomParser

/-! ### Concrete test doubles -/

/-- Build a snapshot from the lists of present / displayed / enabled
elements and a text assignment. -/
def mkSnap (pres disp enab : List Locator) (txt : Locator → String) : Snapshot :=
  { present := fun loc => pres.contains loc
    displayed := fun loc => disp.contains loc
    enabled := fun loc => enab.contains loc
    text := txt }

/-- A page on which no element ever exists. -/
def emptySnap : Snapshot := mkSnap [] [] [] (fun _ => "")

def emptyDom : Dom := fun _ => emptySnap

/-- Page for the `InnParser._parse_result` race tie: the success marker
`result_1` and the error markers `result_3` and `result_err` are all
displayed at the same tick; `result_0` is absent; `resultInn` holds an
INN value. -/
def innTieSnap : Snapshot :=
  mkSnap [InnParser.result1, InnParser.result3, InnParser.resultErr, InnParser.resultInn]
    [InnParser.result1, InnParser.result3, InnParser.resultErr]
    []
    (fun loc => if loc == InnParser.resultInn then "123456789012" else "")

def innTieDom : Dom := fun _ => innTieSnap

/-- ArbitrParser page whose steps all succeed and where a result marker
is visible while the race resolves (ticks 0–5) but neither marker is
displayed any more when `_is_element_displayed` samples it (tick 6 on):
the classifier falls through to `UndefinedError`. -/
def arbitrStepsSnap : Snapshot :=
  mkSnap [ArbitrParser.innField, ArbitrParser.submitBtn, ArbitrParser.noResultsMarker,
      ArbitrParser.resultsMarker]
    [ArbitrParser.innField, ArbitrParser.submitBtn, ArbitrParser.noResultsMarker]
    [ArbitrParser.submitBtn]
    (fun _ => "")

def arbitrVanishSnap : Snapshot :=
  mkSnap [ArbitrParser.noResultsMarker, ArbitrParser.resultsMarker] [] [] (fun _ => "")

def arbitrVanishDom : Dom := fun t => if t ≤ 5 then arbitrStepsSnap else arbitrVanishSnap

/-- ArbitrParser page on which only the no-results marker is ever
satisfied. -/
def arbitrStepsDom : Dom := fun _ => arbitrStepsSnap

/-- InnParser page for the successful extraction run: the consent
elements and form fields exist, the success marker `result_1` is
displayed, and `resultInn` carries the INN text. -/
def innSuccessSnap : Snapshot :=
  mkSnap [InnParser.unichk0, InnParser.btnContinue, InnParser.btnSend,
      InnParser.famField, InnParser.namField, InnParser.otchField,
      InnParser.bdateField, InnParser.docnoField,
      InnParser.result1, InnParser.resultInn]
    [InnParser.famField, InnParser.namField, InnParser.otchField,
      InnParser.bdateField, InnParser.docnoField, InnParser.result1]
    []
    (fun loc => if loc == InnParser.resultInn then "123456789012" else "")

def innSuccessDom : Dom := fun _ => innSuccessSnap

/-- RomParser page whose steps succeed and whose client-side validation
banner `field-errors` is displayed throughout. -/
def romFieldErrSnap : Snapshot :=
  mkSnap [RomParser.queryField, RomParser.submitBtn, RomParser.fieldErrorsMarker]
    [RomParser.queryField, RomParser.submitBtn, RomParser.fieldErrorsMarker]
    [RomParser.submitBtn]
    (fun _ => "")

def romFieldErrDom : Dom := fun _ => romFieldErrSnap

/-- RomParser page whose steps succeed but on which no result marker
and no validation banner ever appears. -/
def romNoResultSnap : Snapshot :=
  mkSnap [RomParser.queryField, RomParser.submitBtn]
    [RomParser.queryField, RomParser.submitBtn]
    [RomParser.submitBtn]
    (fun _ => "")

def romNoResultDom : Dom := fun _ => romNoResultSnap

/-! ## Helper lemmas about the regex scan of `NpdParser._analyze_result` -/

namespace NpdParser

theorem containsL_of_drop (p : List Char) :
    ∀ (l : List Char) (j : Nat), startsWithL (l.drop j) p = true → containsL l p = true := by
  intro l
  induction l with
  | nil =>
    intro j h
    rw [List.drop_nil] at h
    simpa [containsL] using h
  | cons c t ih =>
    intro j h
    cases j with
    | zero =>
      rw [List.drop_zero] at h
      simp [containsL, h]
    | succ j =>
      rw [List.drop_succ_cons] at h
      simp [containsL, ih j h]

theorem startsWithL_append (q : List Char) :
    ∀ (p l : List Char), startsWithL l (p ++ q) = true →
      startsWithL (l.drop p.length) q = true := by
  intro p
  induction p with
  | nil =>
    intro l h
    simpa using h
  | cons d ds ih =>
    intro l h
    cases l with
    | nil => simp [startsWithL] at h
    | cons c cs =>
      rw [List.cons_append] at h
      simp only [startsWithL, Bool.and_eq_true] at h
      simpa [List.drop_succ_cons] using ih cs h.2

theorem phrase_ne_decomp : phrase_ne = "не ".data ++ phrase_ya := by decide

/-- A successful match of either alternative yields an occurrence of
`является` in the text. -/
theorem containsL_ya_of_matchPat {l : List Char} {i : Nat} {p : List Char}
    (hp : p = phrase_ne ∨ p = phrase_ya) (h : matchPat l i p = true) :
    containsL l phrase_ya = true := by
  have hsw : startsWithL (l.drop i) p = true := by
    simp only [matchPat, Bool.and_eq_true] at h
    exact h.1.2
  rcases hp with hp | hp
  · subst hp
    rw [phrase_ne_decomp] at hsw
    have := startsWithL_append phrase_ya "не ".data (l.drop i) hsw
    rw [List.drop_drop] at this
    exact containsL_of_drop phrase_ya l _ this
  · subst hp
    exact containsL_of_drop phrase_ya l i hsw

/-- A match of the first alternative yields an occurrence of `не является`. -/
theorem containsL_ne_of_matchPat {l : List Char} {i : Nat}
    (h : matchPat l i phrase_ne = true) : containsL l phrase_ne = true := by
  have hsw : startsWithL (l.drop i) phrase_ne = true := by
    simp only [matchPat, Bool.and_eq_true] at h
    exact h.1.2
  exact containsL_of_drop phrase_ne l i hsw

theorem reSearchFrom_some_contains {l : List Char} {p : List Char} :
    ∀ {fuel i : Nat}, reSearchFrom l i fuel = some p → containsL l phrase_ya = true := by
  intro fuel
  induction fuel with
  | zero => intro i h; simp [reSearchFrom] at h
  | succ fuel ih =>
    intro i h
    rw [reSearchFrom] at h
    by_cases h1 : matchPat l i phrase_ne = true
    · exact containsL_ya_of_matchPat (Or.inl rfl) h1
    · rw [if_neg h1] at h
      by_cases h2 : matchPat l i phrase_ya = true
      · exact containsL_ya_of_matchPat (Or.inr rfl) h2
      · rw [if_neg h2] at h
        exact ih h

theorem reSearchFrom_some_ne_contains {l : List Char} :
    ∀ {fuel i : Nat}, reSearchFrom l i fuel = some phrase_ne →
      containsL l phrase_ne = true := by
  intro fuel
  induction fuel with
  | zero => intro i h; simp [reSearchFrom] at h
  | succ fuel ih =>
    intro i h
    rw [reSearchFrom] at h
    by_cases h1 : matchPat l i phrase_ne = true
    · exact containsL_ne_of_matchPat h1
    · rw [if_neg h1] at h
      by_cases h2 : matchPat l i phrase_ya = true
      · rw [if_pos h2] at h
        have : phrase_ya = phrase_ne := by injection h
        exact absurd this (by decide)
      · rw [if_neg h2] at h
        exact ih h

theorem reSearchFrom_members {l : List Char} {p : List Char} :
    ∀ {fuel i : Nat}, reSearchFrom l i fuel = some p →
      p = phrase_ne ∨ p = phrase_ya := by
  intro fuel
  induction fuel with
  | zero => intro i h; simp [reSearchFrom] at h
  | succ fuel ih =>
    intro i h
    rw [reSearchFrom] at h
    by_cases h1 : matchPat l i phrase_ne = true
    · rw [if_pos h1] at h
      exact Or.inl (by injection h with h'; exact h'.symm)
    · rw [if_neg h1] at h
      by_cases h2 : matchPat l i phrase_ya = true
      · rw [if_pos h2] at h
        exact Or.inr (by injection h with h'; exact h'.symm)
      · rw [if_neg h2] at h
        exact ih h

theorem reSearchFrom_complete {l : List Char} {j : Nat}
    (hj : matchPat l j phrase_ne = true ∨ matchPat l j phrase_ya = true) :
    ∀ {fuel i : Nat}, i ≤ j → j < i + fuel → (reSearchFrom l i fuel).isSome = true := by
  intro fuel
  induction fuel with
  | zero => intro i h1 h2; omega
  | succ fuel ih =>
    intro i h1 h2
    rw [reSearchFrom]
    by_cases hm1 : matchPat l i phrase_ne = true
    · rw [if_pos hm1]; rfl
    · rw [if_neg hm1]
      by_cases hm2 : matchPat l i phrase_ya = true
      · rw [if_pos hm2]; rfl
      · rw [if_neg hm2]
        have hne : i ≠ j := by
          rintro rfl
          rcases hj with hj | hj
          · exact hm1 hj
          · exact hm2 hj
        exact ih (by omega) (by omega)

/-- If the scan returns the bare `является`, then at the first matching
position the first alternative failed, and no earlier position matched
either alternative. -/
theorem reSearchFrom_first_ya {l : List Char} :
    ∀ {fuel i : Nat}, reSearchFrom l i fuel = some phrase_ya →
      ∃ j, i ≤ j ∧ matchPat l j phrase_ya = true ∧ matchPat l j phrase_ne = false ∧
        ∀ k, i ≤ k → k < j →
          matchPat l k phrase_ne = false ∧ matchPat l k phrase_ya = false := by
  intro fuel
  induction fuel with
  | zero => intro i h; simp [reSearchFrom] at h
  | succ fuel ih =>
    intro i h
    rw [reSearchFrom] at h
    by_cases h1 : matchPat l i phrase_ne = true
    · rw [if_pos h1] at h
      have : phrase_ne = phrase_ya := by injection h
      exact absurd this (by decide)
    · rw [if_neg h1] at h
      by_cases h2 : matchPat l i phrase_ya = true
      · refine ⟨i, le_refl i, h2, Bool.eq_false_iff.mpr h1, ?_⟩
        intro k hk1 hk2
        omega
      · rw [if_neg h2] at h
        obtain ⟨j, hj1, hj2, hj3, hj4⟩ := ih h
        refine ⟨j, by omega, hj2, hj3, ?_⟩
        intro k hk1 hk2
        rcases Nat.eq_or_lt_of_le hk1 with rfl | hk1'
        · exact ⟨Bool.eq_false_iff.mpr h1, Bool.eq_false_iff.mpr h2⟩
        · exact hj4 k (by omega) hk2

theorem matchPat_lt_length {l : List Char} {i : Nat} {p : List Char}
    (hp : p ≠ []) (h : matchPat l i p = true) : i < l.length := by
  by_contra hlt
  have hdrop : l.drop i = [] := List.drop_eq_nil_of_le (by omega)
  have hsw : startsWithL (l.drop i) p = true := by
    simp only [matchPat, Bool.and_eq_true] at h
    exact h.1.2
  rw [hdrop] at hsw
  cases p with
  | nil => exact hp rfl
  | cons c cs => simp [startsWithL] at hsw

end NpdParser

/-! ## Claim C2 -/

/-- C2, counterexample: on text matching neither phrase,
`NpdParser._analyze_result` raises `ServiceUnavailableError`, not
`UndefinedError` as the claim states. -/
theorem claim_C2_counterexample :
    NpdParser._analyze_result "Сведения не найдены" =
      .error .serviceUnavailableError ∧
    NpdParser._analyze_result "Сведения не найдены" ≠
      .error .undefinedError := by
  decide

/-- C2, amended: `NpdParser._analyze_result` raises
`ServiceUnavailableError` (not `UndefinedError`) when the text contains
no occurrence of `является` at all; it returns `False` when `не
является` matches at a word boundary and every word-boundary occurrence
of `является` is the tail of such a `не является` occurrence; and it
returns `True` when `является` matches at a word boundary and `не
является` occurs nowhere in the text. -/
theorem claim_C2_amended :
    (∀ text : String, NpdParser.containsL text.data NpdParser.phrase_ya = false →
      NpdParser._analyze_result text = .error .serviceUnavailableError) ∧
    (∀ text : String,
      (∃ i, NpdParser.matchPat text.data i NpdParser.phrase_ne = true) →
      (∀ j, NpdParser.matchPat text.data j NpdParser.phrase_ya = true →
        3 ≤ j ∧ NpdParser.matchPat text.data (j - 3) NpdParser.phrase_ne = true) →
      NpdParser._analyze_result text = .ok false) ∧
    (∀ text : String,
      (∃ i, NpdParser.matchPat text.data i NpdParser.phrase_ya = true) →
      NpdParser.containsL text.data NpdParser.phrase_ne = false →
      NpdParser._analyze_result text = .ok true) := by
  refine ⟨?_, ?_, ?_⟩
  · intro text hnc
    cases hrs : NpdParser.re_search text.data with
    | none => simp [NpdParser._analyze_result, hrs]
    | some p =>
      rw [NpdParser.re_search] at hrs
      exact absurd (NpdParser.reSearchFrom_some_contains hrs) (by simp [hnc])
  · rintro text ⟨i, hi⟩ hclose
    have hlen : i < text.data.length :=
      NpdParser.matchPat_lt_length (by decide) hi
    have hsome : (NpdParser.re_search text.data).isSome = true := by
      rw [NpdParser.re_search]
      exact NpdParser.reSearchFrom_complete (Or.inl hi) (Nat.zero_le i) (by omega)
    obtain ⟨p, hp⟩ := Option.isSome_iff_exists.mp hsome
    rw [NpdParser.re_search] at hp
    rcases NpdParser.reSearchFrom_members hp with rfl | rfl
    · have hp' : NpdParser.re_search text.data = some NpdParser.phrase_ne := by
        rw [NpdParser.re_search]; exact hp
      simp only [NpdParser._analyze_result, hp']
      decide
    · obtain ⟨j, hj0, hj2, hj3, hj4⟩ := NpdParser.reSearchFrom_first_ya hp
      obtain ⟨h3j, hjm⟩ := hclose j hj2
      have hmin := hj4 (j - 3) (Nat.zero_le _) (by omega)
      rw [hmin.1] at hjm
      exact absurd hjm (by simp)
  · rintro text ⟨i, hi⟩ hnc
    have hlen : i < text.data.length :=
      NpdParser.matchPat_lt_length (by decide) hi
    have hsome : (NpdParser.re_search text.data).isSome = true := by
      rw [NpdParser.re_search]
      exact NpdParser.reSearchFrom_complete (Or.inr hi) (Nat.zero_le i) (by omega)
    obtain ⟨p, hp⟩ := Option.isSome_iff_exists.mp hsome
    rw [NpdParser.re_search] at hp
    rcases NpdParser.reSearchFrom_members hp with rfl | rfl
    · exact absurd (NpdParser.reSearchFrom_some_ne_contains hp) (by simp [hnc])
    · have hp' : NpdParser.re_search text.data = some NpdParser.phrase_ya := by
        rw [NpdParser.re_search]; exact hp
      simp [NpdParser._analyze_result, hp']

/-- C2, witness for the amended theorem at a concrete input. -/
theorem claim_C2_witness :
    NpdParser._analyze_result "нет данных" = .error .serviceUnavailableError :=
  claim_C2_amended.1 "нет данных" (by decide)

/-! ## Claim C1 -/

/-- C1, counterexample: on a page where no element ever appears, every
required Step's wait times out, and `ArbitrParser.parse` raises
`ServiceUnavailableError`, not `UndefinedError` as the claim states. -/
theorem claim_C1_counterexample :
    (ArbitrParser.parse 30 "А" emptyDom ⟨0, []⟩).1 = .error .serviceUnavailableError ∧
    (ArbitrParser.parse 30 "А" emptyDom ⟨0, []⟩).1 ≠ .error .undefinedError := by
  decide

/-- C1, amended: for every parser, when a required Step's element never
becomes visible, the Step's wait raises `TimeoutException`, which the
`except` clause of `parse` converts into `ServiceUnavailableError` (not
`UndefinedError`). -/
theorem claim_C1_amended (timeout : ℚ) (dom : Dom) (st : St)
    (inn surname name lastname birthdate passport current_date : String) :
    ((∀ t, (dom t).visible ArbitrParser.innField = false) →
      (ArbitrParser.parse timeout inn dom st).1 = .error .serviceUnavailableError) ∧
    ((∀ t, (dom t).visible RomParser.queryField = false) →
      (RomParser.parse timeout inn dom st).1 = .error .serviceUnavailableError) ∧
    ((∀ t, (dom t).visible NpdParser.tbINN = false) →
      (NpdParser.parse timeout inn current_date dom st).1 = .error .serviceUnavailableError) ∧
    ((∀ t, (dom t).visible InnParser.famField = false) →
      (InnParser.parse timeout surname name lastname birthdate passport dom st).1 =
        .error .serviceUnavailableError) := by
  refine ⟨?_, ?_, ?_, ?_⟩ <;> intro h
  · cases hcb : (dom st.tick).clickable ArbitrParser.closeNotificationBtn <;>
    simp [ArbitrParser.parse, ArbitrParser.parse_body, ArbitrParser._close_notification,
      ArbitrParser._input_inn, BaseParser.wait_for_element_visibility,
      BaseParser.wait_for_element_clickable, wait_until_visible, wait_until_clickable,
      click, send_keys, suppressExn, M.bind, M.raise, handleSelenium, handleRes,
      hcb, h, St.log]
  · simp [RomParser.parse, RomParser.parse_body, RomParser._input_inn,
      BaseParser.wait_for_element_visibility, wait_until_visible, set_value,
      M.bind, M.raise, handleSelenium, handleRes, h, St.log]
  · simp [NpdParser.parse, NpdParser.parse_body, NpdParser._fill_inn_field,
      BaseParser.wait_for_element_visibility, wait_until_visible, set_value,
      M.bind, M.raise, handleSelenium, handleRes, h, St.log]
  · cases h1 : (dom st.tick).present InnParser.unichk0 with
    | false =>
      simp [InnParser.parse, InnParser.parse_body, InnParser._bypass_personal_data_block,
        InnParser._find_and_click, InnParser._fill_personal_info, InnParser._fill_field,
        BaseParser.wait_for_element_visibility, wait_until_visible, find_element, click,
        set_value, suppressOr, M.bind, M.pure, M.raise, handleSelenium, handleRes,
        h1, h, St.log]
    | true =>
      cases h2 : (dom (st.tick + 1 + 1)).present InnParser.btnContinue <;>
      simp [InnParser.parse, InnParser.parse_body, InnParser._bypass_personal_data_block,
        InnParser._find_and_click, InnParser._fill_personal_info, InnParser._fill_field,
        BaseParser.wait_for_element_visibility, wait_until_visible, find_element, click,
        set_value, suppressOr, M.bind, M.pure, M.raise, handleSelenium, handleRes,
        h1, h2, h, St.log]

/-- C1, witness for the amended theorem at a concrete page. -/
theorem claim_C1_witness :
    (ArbitrParser.parse 30 "123" emptyDom ⟨0, []⟩).1 = .error .serviceUnavailableError :=
  (claim_C1_amended 30 emptyDom ⟨0, []⟩ "123" "" "" "" "" "" "").1 (fun _t => rfl)

/-! ## Claim C3 -/

/-- C3, counterexample: on a page where the success marker `result_1`
and the error markers `result_3` and `result_err` are displayed at the
same tick, `InnParser._parse_result` yields the success value, not the
error, because the code checks `result_1` before `result_3` and
`result_err`. -/
theorem claim_C3_counterexample :
    (innTieDom 0).displayed InnParser.result1 = true ∧
    (innTieDom 0).displayed InnParser.result3 = true ∧
    (innTieDom 0).displayed InnParser.resultErr = true ∧
    (InnParser._parse_result 30 innTieDom ⟨0, []⟩).1 = .ok "123456789012" := by
  decide

/-- C3, amended: the tie-break of `InnParser._parse_result` follows the
fixed declaration order `result_0`, `result_1`, `result_3`,
`result_err`; in particular, whenever the success marker `result_1` is
displayed (and `result_0` is absent), the INN value is returned,
regardless of whether `result_3` or `result_err` is displayed at the
same tick. -/
theorem claim_C3_amended (timeout : ℚ) (dom : Dom) (st : St) (s : String)
    (h0 : ∀ t, (dom t).present InnParser.result0 = false)
    (h1p : ∀ t, (dom t).present InnParser.result1 = true)
    (h1d : ∀ t, (dom t).displayed InnParser.result1 = true)
    (hip : ∀ t, (dom t).present InnParser.resultInn = true)
    (htext : ∀ t, (dom t).text InnParser.resultInn = s) :
    (InnParser._parse_result timeout dom st).1 = .ok s := by
  simp [InnParser._parse_result, InnParser._wait_for_result_display,
    InnParser._is_element_displayed, wait_until_any_visible, find_element, is_displayed,
    read_text, suppressOr, Snapshot.visible, M.bind, M.pure, M.raise,
    h0, h1p, h1d, hip, htext, St.log]

/-- C3, witness for the amended theorem at a concrete page. -/
theorem claim_C3_witness :
    (InnParser._parse_result 30 innTieDom ⟨5, []⟩).1 = .ok "123456789012" :=
  claim_C3_amended 30 innTieDom ⟨5, []⟩ "123456789012"
    (fun _t => rfl) (fun _t => rfl) (fun _t => rfl) (fun _t => rfl) (fun _t => rfl)

/-! ## Claim C4 -/

/-- C4 (confirmed): when the Steps succeed, no validation banner shows,
and no terminal marker of the Race ever becomes visible, the Race times
out with `TimeoutException` and `RomParser.parse` raises
`ServiceUnavailableError`. -/
theorem claim_C4 (timeout : ℚ) (inn : String) (dom : Dom) (st : St)
    (h1 : ∀ t, (dom t).visible RomParser.queryField = true)
    (h2 : ∀ t, (dom t).clickable RomParser.submitBtn = true)
    (h3 : ∀ t, (dom t).visible RomParser.fieldErrorsMarker = false)
    (h4 : ∀ t, (dom t).visible RomParser.pnlData = false)
    (h5 : ∀ t, (dom t).visible RomParser.pnlNoData = false) :
    (RomParser.parse timeout inn dom st).1 = .error .serviceUnavailableError := by
  simp [RomParser.parse, RomParser.parse_body, RomParser._input_inn, RomParser._submit_search,
    RomParser._check_entry_validation, RomParser._check_result, RomParser._wait_for_result_display,
    BaseParser.wait_for_element_visibility, BaseParser.wait_for_element_clickable,
    wait_until_visible, wait_until_clickable, wait_until_any_visible, set_value, click,
    suppressExn, M.bind, M.raise, handleSelenium, handleRes, h1, h2, h3, h4, h5, St.log]

/-- C4, witness at a concrete page. -/
theorem claim_C4_witness :
    (RomParser.parse 30 "555" romNoResultDom ⟨0, []⟩).1 = .error .serviceUnavailableError :=
  claim_C4 30 "555" romNoResultDom ⟨0, []⟩
    (fun _t => rfl) (fun _t => rfl) (fun _t => rfl) (fun _t => rfl) (fun _t => rfl)

/-! ## Claim C5 -/

/-- C5 (confirmed): when a client-side validation marker is visible
during the short time-boxed check that runs after the last Step,
`parse` raises `FieldFormatError` and the Race over the terminal result
markers is never started: for `RomParser` no `waitAny` wait (its only
`any_of` race) ever appears in the trace, and for `NpdParser` no wait
on the result block (its race) ever appears in the trace. -/
theorem claim_C5 :
    (∀ (timeout : ℚ) (inn : String) (dom : Dom),
      (∀ t, (dom t).visible RomParser.queryField = true) →
      (∀ t, (dom t).clickable RomParser.submitBtn = true) →
      (∀ t, (dom t).visible RomParser.fieldErrorsMarker = true) →
      ((RomParser.parse timeout inn).run dom).1 = .error .fieldFormatError ∧
      ∀ (locs : List Locator) (tq : ℚ),
        Event.waitAny locs tq ∉ ((RomParser.parse timeout inn).run dom).2.trace) ∧
    (∀ (timeout : ℚ) (inn current_date : String) (dom : Dom),
      (∀ t, (dom t).visible NpdParser.tbINN = true) →
      (∀ t, (dom t).visible NpdParser.tbDate = true) →
      (∀ t, (dom t).clickable NpdParser.btSend = true) →
      (∀ t, (dom t).visible NpdParser.requiredFieldValidator1 = true) →
      ((NpdParser.parse timeout inn current_date).run dom).1 = .error .fieldFormatError ∧
      ∀ (tq : ℚ),
        Event.waitVisibility NpdParser.resultBlock tq ∉
          ((NpdParser.parse timeout inn current_date).run dom).2.trace) := by
  constructor
  · intro timeout inn dom h1 h2 h3
    refine ⟨?_, ?_⟩ <;>
    simp [RomParser.parse, RomParser.parse_body, RomParser._input_inn, RomParser._submit_search,
      RomParser._check_entry_validation,
      BaseParser.wait_for_element_visibility, BaseParser.wait_for_element_clickable,
      wait_until_visible, wait_until_clickable, set_value, click,
      suppressExn, M.bind, M.raise, M.run, handleSelenium, handleRes, h1, h2, h3, St.log]
  · intro timeout inn current_date dom h1 h2 h3 h4
    have hne1 : NpdParser.resultBlock ≠ NpdParser.tbINN := by decide
    have hne2 : NpdParser.resultBlock ≠ NpdParser.tbDate := by decide
    refine ⟨?_, ?_⟩ <;>
    simp [NpdParser.parse, NpdParser.parse_body, NpdParser._fill_inn_field,
      NpdParser._fill_date_field, NpdParser._submit_form, NpdParser._check_entry_validation,
      BaseParser.wait_for_element_visibility, BaseParser.wait_for_element_clickable,
      wait_until_visible, wait_until_clickable, wait_until_any_visible, set_value, click,
      suppressExn, M.bind, M.raise, M.run, handleSelenium, handleRes, h1, h2, h3, h4, St.log,
      hne1, hne2]

/-- C5, witness at a concrete page. -/
theorem claim_C5_witness :
    ((RomParser.parse 30 "1").run romFieldErrDom).1 = .error .fieldFormatError :=
  (claim_C5.1 30 "1" romFieldErrDom (fun _t => rfl) (fun _t => rfl) (fun _t => rfl)).1

/-! ## Claim C6 -/

/-- C6 (confirmed): after the Race of the boolean-lookup workflow
resolves, `ArbitrParser.parse` returns `False` when the `b-noResults`
marker is displayed, returns `True` when only the `b-results` marker is
displayed, and raises `UndefinedError` when the Race resolved but
neither marker is displayed any more at classification time (shown on a
page where the markers stop being displayed after the Race tick). -/
theorem claim_C6 :
    (∀ (timeout : ℚ) (inn : String) (dom : Dom) (st : St),
      (∀ t, (dom t).present ArbitrParser.innField = true) →
      (∀ t, (dom t).displayed ArbitrParser.innField = true) →
      (∀ t, (dom t).present ArbitrParser.submitBtn = true) →
      (∀ t, (dom t).displayed ArbitrParser.submitBtn = true) →
      (∀ t, (dom t).enabled ArbitrParser.submitBtn = true) →
      (∀ t, (dom t).present ArbitrParser.noResultsMarker = true) →
      (∀ t, (dom t).displayed ArbitrParser.noResultsMarker = true) →
      (ArbitrParser.parse timeout inn dom st).1 = .ok false) ∧
    (∀ (timeout : ℚ) (inn : String) (dom : Dom) (st : St),
      (∀ t, (dom t).present ArbitrParser.innField = true) →
      (∀ t, (dom t).displayed ArbitrParser.innField = true) →
      (∀ t, (dom t).present ArbitrParser.submitBtn = true) →
      (∀ t, (dom t).displayed ArbitrParser.submitBtn = true) →
      (∀ t, (dom t).enabled ArbitrParser.submitBtn = true) →
      (∀ t, (dom t).present ArbitrParser.noResultsMarker = false) →
      (∀ t, (dom t).present ArbitrParser.resultsMarker = true) →
      (∀ t, (dom t).displayed ArbitrParser.resultsMarker = true) →
      (ArbitrParser.parse timeout inn dom st).1 = .ok true) ∧
    (ArbitrParser.parse 30 "123" arbitrVanishDom ⟨0, []⟩).1 = .error .undefinedError := by
  refine ⟨?_, ?_, by decide⟩
  · intro timeout inn dom st hifp hifd hsbp hsbd hsbe hnp hnd
    have hifv : ∀ t, (dom t).visible ArbitrParser.innField = true := fun t => by
      simp [Snapshot.visible, hifp t, hifd t]
    have hsbc : ∀ t, (dom t).clickable ArbitrParser.submitBtn = true := fun t => by
      simp [Snapshot.clickable, Snapshot.visible, hsbp t, hsbd t, hsbe t]
    have hnv : ∀ t, (dom t).visible ArbitrParser.noResultsMarker = true := fun t => by
      simp [Snapshot.visible, hnp t, hnd t]
    cases hcb : (dom st.tick).clickable ArbitrParser.closeNotificationBtn <;>
    simp [ArbitrParser.parse, ArbitrParser.parse_body, ArbitrParser._close_notification,
      ArbitrParser._input_inn, ArbitrParser._submit_search, ArbitrParser._check_result,
      ArbitrParser._wait_for_result_display, ArbitrParser._is_element_displayed,
      BaseParser.wait_for_element_visibility, BaseParser.wait_for_element_clickable,
      wait_until_visible, wait_until_clickable, wait_until_any_visible, find_element,
      is_displayed, click, send_keys, suppressExn, suppressOr, M.bind, M.pure, M.raise,
      handleSelenium, handleRes, hcb, hifv, hsbc, hnv, hnp, hnd, St.log]
  · intro timeout inn dom st hifp hifd hsbp hsbd hsbe hnabs hrp hrd
    have hifv : ∀ t, (dom t).visible ArbitrParser.innField = true := fun t => by
      simp [Snapshot.visible, hifp t, hifd t]
    have hsbc : ∀ t, (dom t).clickable ArbitrParser.submitBtn = true := fun t => by
      simp [Snapshot.clickable, Snapshot.visible, hsbp t, hsbd t, hsbe t]
    have hnv : ∀ t, (dom t).visible ArbitrParser.noResultsMarker = false := fun t => by
      simp [Snapshot.visible, hnabs t]
    have hrv : ∀ t, (dom t).visible ArbitrParser.resultsMarker = true := fun t => by
      simp [Snapshot.visible, hrp t, hrd t]
    cases hcb : (dom st.tick).clickable ArbitrParser.closeNotificationBtn <;>
    simp [ArbitrParser.parse, ArbitrParser.parse_body, ArbitrParser._close_notification,
      ArbitrParser._input_inn, ArbitrParser._submit_search, ArbitrParser._check_result,
      ArbitrParser._wait_for_result_display, ArbitrParser._is_element_displayed,
      BaseParser.wait_for_element_visibility, BaseParser.wait_for_element_clickable,
      wait_until_visible, wait_until_clickable, wait_until_any_visible, find_element,
      is_displayed, click, send_keys, suppressExn, suppressOr, M.bind, M.pure, M.raise,
      handleSelenium, handleRes, hcb, hifv, hsbc, hnv, hrv, hnabs, hrp, hrd, St.log]

/-- C6, witness at a concrete page where only `b-noResults` is
displayed. -/
theorem claim_C6_witness :
    (ArbitrParser.parse 30 "9" arbitrStepsDom ⟨0, []⟩).1 = .ok false :=
  claim_C6.1 30 "9" arbitrStepsDom ⟨0, []⟩
    (fun _t => rfl) (fun _t => rfl) (fun _t => rfl) (fun _t => rfl) (fun _t => rfl)
    (fun _t => rfl) (fun _t => rfl)

/-! ## Claim C7 -/

/-- C7 (confirmed): for the extraction workflow, when the success
marker `result_1` is the displayed Race winner (and `result_0` is
absent) and the value locator `resultInn` carries text `s`,
`InnParser.parse` returns exactly `s`. -/
theorem claim_C7 (timeout : ℚ) (dom : Dom) (st : St)
    (surname name lastname birthdate passport s : String)
    (hup : ∀ t, (dom t).present InnParser.unichk0 = true)
    (hbcp : ∀ t, (dom t).present InnParser.btnContinue = true)
    (hbsp : ∀ t, (dom t).present InnParser.btnSend = true)
    (hfam : ∀ t, (dom t).visible InnParser.famField = true)
    (hnam : ∀ t, (dom t).visible InnParser.namField = true)
    (hotch : ∀ t, (dom t).visible InnParser.otchField = true)
    (hbdate : ∀ t, (dom t).visible InnParser.bdateField = true)
    (hdocno : ∀ t, (dom t).visible InnParser.docnoField = true)
    (hfe : ∀ t, (dom t).visible InnParser.fieldErrorsMarker = false)
    (hcap : ∀ t, (dom t).visible InnParser.uniDialogData = false)
    (hr0 : ∀ t, (dom t).present InnParser.result0 = false)
    (hr1p : ∀ t, (dom t).present InnParser.result1 = true)
    (hr1d : ∀ t, (dom t).displayed InnParser.result1 = true)
    (hrip : ∀ t, (dom t).present InnParser.resultInn = true)
    (htext : ∀ t, (dom t).text InnParser.resultInn = s) :
    (InnParser.parse timeout surname name lastname birthdate passport dom st).1 = .ok s := by
  have hr0v : ∀ t, (dom t).visible InnParser.result0 = false := fun t => by
    simp [Snapshot.visible, hr0 t]
  have hr1v : ∀ t, (dom t).visible InnParser.result1 = true := fun t => by
    simp [Snapshot.visible, hr1p t, hr1d t]
  simp [InnParser.parse, InnParser.parse_body, InnParser._bypass_personal_data_block,
    InnParser._find_and_click, InnParser._fill_personal_info, InnParser._fill_field,
    InnParser._submit_form, InnParser._validate_input, InnParser._check_for_errors,
    InnParser._check_for_captcha, InnParser._parse_result, InnParser._wait_for_result_display,
    InnParser._is_element_displayed,
    BaseParser.wait_for_element_visibility, wait_until_visible, wait_until_any_visible,
    find_element, is_displayed, read_text, click, set_value, implicitly_wait,
    suppressExn, suppressOr, finallyDo, M.bind, M.pure, M.raise,
    handleSelenium, handleRes, hup, hbcp, hbsp, hfam, hnam, hotch, hbdate, hdocno,
    hfe, hcap, hr0, hr0v, hr1p, hr1d, hr1v, hrip, htext, St.log]

/-- C7, witness at a concrete page. -/
theorem claim_C7_witness :
    (InnParser.parse 30 "Иванов" "Иван" "Иванович" "01.01.1990" "12 34 567890"
      innSuccessDom ⟨0, []⟩).1 = .ok "123456789012" :=
  claim_C7 30 innSuccessDom ⟨0, []⟩ "Иванов" "Иван" "Иванович" "01.01.1990" "12 34 567890"
    "123456789012"
    (fun _t => rfl) (fun _t => rfl) (fun _t => rfl) (fun _t => rfl) (fun _t => rfl)
    (fun _t => rfl) (fun _t => rfl) (fun _t => rfl) (fun _t => rfl) (fun _t => rfl)
    (fun _t => rfl) (fun _t => rfl) (fun _t => rfl) (fun _t => rfl) (fun _t => rfl)

/-! ## Claim C8 -/

/-- C8, counterexample: passing the explicit timeout `0` does not make
the wait use `0`; the `timeout or self.timeout` fallback of base.py
treats `0` as falsy and the wait uses the session-wide timeout (here
`30`) instead. -/
theorem claim_C8_counterexample :
    (BaseParser.wait_for_element_visibility 30 ArbitrParser.innField (some 0) emptyDom
      ⟨0, []⟩).2.trace = [Event.waitVisibility ArbitrParser.innField 30] ∧
    (BaseParser.wait_for_element_visibility 30 ArbitrParser.innField (some 0) emptyDom
      ⟨0, []⟩).2.trace ≠ [Event.waitVisibility ArbitrParser.innField 0] := by
  decide

/-- C8, amended: with no explicit timeout the wait primitives use the
session-wide timeout; an explicit *non-zero* timeout `t` is used as
passed; the explicit timeout `0` is falsy under Python `or` and falls
back to the session-wide timeout. -/
theorem claim_C8_amended (sessionTimeout : ℚ) (loc : Locator) (dom : Dom) (st : St) :
    ((BaseParser.wait_for_element_visibility sessionTimeout loc none dom st).2.trace =
        st.trace ++ [Event.waitVisibility loc sessionTimeout] ∧
      (BaseParser.wait_for_element_clickable sessionTimeout loc none dom st).2.trace =
        st.trace ++ [Event.waitClickable loc sessionTimeout]) ∧
    (∀ t : ℚ, t ≠ 0 →
      (BaseParser.wait_for_element_visibility sessionTimeout loc (some t) dom st).2.trace =
        st.trace ++ [Event.waitVisibility loc t] ∧
      (BaseParser.wait_for_element_clickable sessionTimeout loc (some t) dom st).2.trace =
        st.trace ++ [Event.waitClickable loc t]) ∧
    ((BaseParser.wait_for_element_visibility sessionTimeout loc (some 0) dom st).2.trace =
        st.trace ++ [Event.waitVisibility loc sessionTimeout] ∧
      (BaseParser.wait_for_element_clickable sessionTimeout loc (some 0) dom st).2.trace =
        st.trace ++ [Event.waitClickable loc sessionTimeout]) := by
  refine ⟨⟨?_, ?_⟩, fun t ht => ⟨?_, ?_⟩, ⟨?_, ?_⟩⟩ <;>
  simp [BaseParser.wait_for_element_visibility, BaseParser.wait_for_element_clickable,
    wait_until_visible, wait_until_clickable, orTimeout, St.log] <;>
  exact fun h0 => absurd h0 (by assumption)

/-- C8, witness for the amended theorem at a concrete non-zero
override. -/
theorem claim_C8_witness :
    (BaseParser.wait_for_element_visibility 30 ArbitrParser.innField (some 5) emptyDom
      ⟨0, []⟩).2.trace = [Event.waitVisibility ArbitrParser.innField 5] := by
  have h := (claim_C8_amended 30 ArbitrParser.innField emptyDom ⟨0, []⟩).2.1 5 (by decide)
  simpa using h.1

/-! ## Claim C9 -/

/-- C9 (confirmed): `_is_element_displayed` never raises (it returns
`Ok` of a Boolean on every page, identically in ArbitrParser and
InnParser), and on a static page it returns `true` iff the element both
exists and is displayed — so "present but not displayed" is classified
exactly like "absent". -/
theorem claim_C9 :
    (∀ (dom : Dom) (st : St) (loc : Locator), ∃ b : Bool,
      (ArbitrParser._is_element_displayed loc dom st).1 = .ok b ∧
      (InnParser._is_element_displayed loc dom st).1 = .ok b) ∧
    (∀ (s : Snapshot) (st : St) (loc : Locator),
      (ArbitrParser._is_element_displayed loc (fun _ => s) st).1 =
        .ok (s.present loc && s.displayed loc) ∧
      (InnParser._is_element_displayed loc (fun _ => s) st).1 =
        .ok (s.present loc && s.displayed loc)) := by
  constructor
  · intro dom st loc
    cases hp : (dom st.tick).present loc
    · refine ⟨false, ?_, ?_⟩ <;>
      simp [ArbitrParser._is_element_displayed, InnParser._is_element_displayed,
        find_element, is_displayed, suppressOr, M.bind, M.pure, hp, St.log]
    · refine ⟨(dom (st.tick + 1)).displayed loc, ?_, ?_⟩ <;>
      simp [ArbitrParser._is_element_displayed, InnParser._is_element_displayed,
        find_element, is_displayed, suppressOr, M.bind, M.pure, hp, St.log]
  · intro s st loc
    cases hp : s.present loc <;>
    refine ⟨?_, ?_⟩ <;>
    simp [ArbitrParser._is_element_displayed, InnParser._is_element_displayed,
      find_element, is_displayed, suppressOr, M.bind, M.pure, hp, St.log]

/-! ## Claim C10 -/

/-- C10 (confirmed): the `except` clauses of `parse` catch only
`NoSuchElementException` and `TimeoutException`; a domain error raised
inside the `try` body of InnParser, NpdParser or RomParser propagates
to the caller unchanged. -/
theorem claim_C10 (e : PyError) (he : e.isDomain = true) (timeout : ℚ)
    (dom : Dom) (st : St)
    (surname name lastname birthdate passport inn current_date inn2 : String) :
    ((InnParser.parse_body timeout surname name lastname birthdate passport dom st).1 =
        .error e →
      (InnParser.parse timeout surname name lastname birthdate passport dom st).1 =
        .error e) ∧
    ((NpdParser.parse_body timeout inn current_date dom st).1 = .error e →
      (NpdParser.parse timeout inn current_date dom st).1 = .error e) ∧
    ((RomParser.parse_body timeout inn2 dom st).1 = .error e →
      (RomParser.parse timeout inn2 dom st).1 = .error e) := by
  have hr : ∀ {α : Type}, handleRes (α := α) (.error e) = .error e := by
    intro α
    cases e <;> simp [handleRes, PyError.isDomain] at he ⊢
  refine ⟨?_, ?_, ?_⟩ <;> intro h <;>
  simp [InnParser.parse, NpdParser.parse, RomParser.parse, handleSelenium, h, hr]

/-- C10, witness: a `FieldFormatError` raised by the validation
sub-step of RomParser reaches the caller of `parse` unchanged. -/
theorem claim_C10_witness :
    (RomParser.parse 30 "77" romFieldErrDom ⟨0, []⟩).1 = .error .fieldFormatError :=
  (claim_C10 .fieldFormatError (by decide) 30 romFieldErrDom ⟨0, []⟩
    "" "" "" "" "" "" "" "77").2.2 (by decide)

end SeleniumNalog
